import Mathlib

/-!
# Verification of the collision / repulsion / placement engine

Shallow embedding of the geometric engine (`getDefaultNodeSize`,
`getNodeBounds`, `calculateAdaptivePadding`, `checkCollision`,
`calculateRepulsionForce`, `findValidPosition`) of the collision-detection
module.

Modelling conventions:
* JavaScript numbers are idealised as real numbers (`ℝ`).
* A JavaScript boolean stored in a result record is modelled as a `Prop`
  (`True` / `False` literals in the branches that build the record).
* The JavaScript value `Infinity`, which the code stores in the `distance`
  field for cross-container pairs, is modelled by `none` in an `Option ℝ`
  field; a finite distance `d` is `some d`.
* `node.data.width` / `node.data.height` may hold arbitrary JavaScript
  values (the code checks `typeof === 'number'`); they are modelled by the
  small dynamic-value type `JVal`.  `node.style?.width` is modelled as
  `Option ℝ` (absent style or absent field both give `none`).
* `Math.random()` is made an explicit argument `rand` of
  `calculateRepulsionForce`, the sampled value in `[0,1)`.
* The spiral `for` loop of `findValidPosition` runs over the radii
  `stepSize, 2·stepSize, …` while `radius < 2000`.  When `stepSize ≤ 0`
  the JavaScript loop never terminates; the embedding returns the empty
  radius list in that (divergent) case, and every theorem about the spiral
  assumes positive resolved dimensions, which force `stepSize > 0`.
-/

open scoped Classical

noncomputable section

/-- A dynamically typed JavaScript value, as far as the size-resolution
code can observe it: a number, a string, or `undefined`/`null`. -/
inductive JVal where
  | num (v : ℝ)
  | str (s : String)
  | undef
deriving DecidableEq

/-- A 2-D position `{x, y}`. -/
structure Pos where
  x : ℝ
  y : ℝ
deriving DecidableEq

/-- A size `{width, height}`. -/
structure Size where
  width : ℝ
  height : ℝ
deriving DecidableEq

/-- A ReactFlow node as consumed by the engine: identifier, type tag,
optional parent container, top-left position, optional numeric
`style.width`/`style.height`, and dynamic `data.width`/`data.height`. -/
structure Node where
  id : String
  type : String
  parentNode : Option String
  position : Pos
  styleWidth : Option ℝ
  styleHeight : Option ℝ
  dataWidth : JVal
  dataHeight : JVal

/-- The per-type default size table `DEFAULT_NODE_SIZES` (absent key =
`none`). -/
def DEFAULT_NODE_SIZES : String → Option Size := fun t =>
  match t with
  | "agent" => some ⟨200, 120⟩
  | "contact" => some ⟨120, 140⟩
  | "chess" => some ⟨360, 360⟩
  | "app" => some ⟨400, 300⟩
  | "metric" => some ⟨160, 120⟩
  | "graph" => some ⟨500, 400⟩
  | "winamp" => some ⟨307, 400⟩
  | "butterchurn" => some ⟨400, 300⟩
  | "pomodoro" => some ⟨228, 228⟩
  | "flipclock" => some ⟨300, 342⟩
  | "shader" => some ⟨200, 150⟩
  | "matrix" => some ⟨500, 500⟩
  | "portal" => some ⟨150, 100⟩
  | "note" => some ⟨200, 150⟩
  | "task" => some ⟨200, 100⟩
  | "stack" => some ⟨200, 150⟩
  | "device" => some ⟨200, 150⟩
  | "synth" => some ⟨300, 200⟩
  | "drummachine" => some ⟨400, 300⟩
  | "sticker" => some ⟨200, 200⟩
  | "stickerpack" => some ⟨300, 200⟩
  | "contactsStack" => some ⟨280, 200⟩
  | "action" => some ⟨80, 80⟩
  | "guitartuna" => some ⟨380, 200⟩
  | "audiointerface" => some ⟨360, 220⟩
  | "templatebrowser" => some ⟨400, 500⟩
  | "projecthub" => some ⟨320, 280⟩
  | "temporalinbox" => some ⟨280, 320⟩
  | "kanban" => some ⟨600, 400⟩
  | "gtdinbox" => some ⟨480, 420⟩
  | "mindmap" => some ⟨600, 400⟩
  | "timeline" => some ⟨700, 400⟩
  | "sketch" => some ⟨600, 500⟩
  | "photoeditor" => some ⟨560, 440⟩
  | "audioeditor" => some ⟨600, 380⟩
  | "publisher" => some ⟨650, 600⟩
  | "default" => some ⟨200, 150⟩
  | _ => none

/-- `getDefaultNodeSize`: table lookup with the `default` entry
`{200, 150}` as fallback (`DEFAULT_NODE_SIZES[nodeType] ||
DEFAULT_NODE_SIZES.default`). -/
def getDefaultNodeSize (nodeType : String) : Size :=
  (DEFAULT_NODE_SIZES nodeType).getD ⟨200, 150⟩

/-- The JavaScript ternary
`node.data?.width && typeof node.data.width === 'number' ? node.data.width : null`:
yields the number when the field holds a truthy number, otherwise `null`
(here `none`).  A numeric `0` is falsy, so it also yields `null`. -/
def dataNum : JVal → Option ℝ
  | JVal.num v => if v = 0 then none else some v
  | JVal.str _ => none
  | JVal.undef => none

/-- JavaScript `a || fallback` for an optional number `a`: the fallback is
taken when `a` is absent or falsy (numeric `0`). -/
def jsOrNum (a : Option ℝ) (fallback : ℝ) : ℝ :=
  match a with
  | some v => if v = 0 then fallback else v
  | none => fallback

/-- The bounding box `{x, y, width, height, centerX, centerY, right,
bottom}` returned by `getNodeBounds`. -/
structure Bounds where
  x : ℝ
  y : ℝ
  width : ℝ
  height : ℝ
  centerX : ℝ
  centerY : ℝ
  right : ℝ
  bottom : ℝ

/-- `getNodeBounds`: per-dimension resolution
`style?.width || (data.width if truthy number) || defaultSize.width`
(and the same chain for the height), then derived corners and center. -/
def getNodeBounds (node : Node) : Bounds :=
  let defaultSize := getDefaultNodeSize node.type
  let width := jsOrNum node.styleWidth (jsOrNum (dataNum node.dataWidth) defaultSize.width)
  let height := jsOrNum node.styleHeight (jsOrNum (dataNum node.dataHeight) defaultSize.height)
  let x := node.position.x
  let y := node.position.y
  { x := x, y := y, width := width, height := height,
    centerX := x + width / 2, centerY := y + height / 2,
    right := x + width, bottom := y + height }

/-- `calculateAdaptivePadding`: `clamp(20 + avgSize·0.1, 20, 100)` where
`avgSize` is the mean of the four widths/heights. -/
def calculateAdaptivePadding (node1 node2 : Node) : ℝ :=
  let bounds1 := getNodeBounds node1
  let bounds2 := getNodeBounds node2
  let avgSize := (bounds1.width + bounds1.height + bounds2.width + bounds2.height) / 4
  let adaptivePadding := avgSize * 0.1
  let totalPadding := 20 + adaptivePadding
  max 20 (min 100 totalPadding)

/-- The record `{colliding, overlapX, overlapY, distance}` returned by
`checkCollision`; `distance = none` encodes the JavaScript `Infinity`. -/
structure CollisionResult where
  colliding : Prop
  overlapX : ℝ
  overlapY : ℝ
  distance : Option ℝ

/-- `checkCollision node1 node2 padding`: cross-parent short-circuit, then
AABB test on the bounds expanded by `padding/2` per side, with overlap
magnitudes and the center-to-center Euclidean distance. -/
def checkCollision (node1 node2 : Node) (padding : ℝ) : CollisionResult :=
  if node1.parentNode ≠ node2.parentNode then
    { colliding := False, overlapX := 0, overlapY := 0, distance := none }
  else
    let bounds1 := getNodeBounds node1
    let bounds2 := getNodeBounds node2
    let e1x := bounds1.x - padding / 2
    let e1y := bounds1.y - padding / 2
    let e1right := bounds1.right + padding / 2
    let e1bottom := bounds1.bottom + padding / 2
    let e2x := bounds2.x - padding / 2
    let e2y := bounds2.y - padding / 2
    let e2right := bounds2.right + padding / 2
    let e2bottom := bounds2.bottom + padding / 2
    let colliding : Prop :=
      ¬ (e1right < e2x ∨ e1x > e2right ∨ e1bottom < e2y ∨ e1y > e2bottom)
    let dx := bounds1.centerX - bounds2.centerX
    let dy := bounds1.centerY - bounds2.centerY
    let distance := Real.sqrt (dx * dx + dy * dy)
    if colliding then
      { colliding := True,
        overlapX := min (e1right - e2x) (e2right - e1x),
        overlapY := min (e1bottom - e2y) (e2bottom - e1y),
        distance := some distance }
    else
      { colliding := False, overlapX := 0, overlapY := 0, distance := some distance }

/-- The record `{deltaX, deltaY, strength}` returned by
`calculateRepulsionForce`. -/
structure ForceResult where
  deltaX : ℝ
  deltaY : ℝ
  strength : ℝ
deriving DecidableEq

/-- `calculateRepulsionForce rand draggedNode otherNode allNodes`:
cross-parent short-circuit; bounds expanded by the full adaptive padding;
AABB overlap test of the expanded zones; zero force outside the zone;
random 30-unit push when the centers coincide (`rand` is the
`Math.random()` sample); otherwise smoothstep strength and a damped
overlap-proportional delta along the normalised center-to-center
direction.  The `allNodes` argument is accepted and unused, as in the
source. -/
def calculateRepulsionForce (rand : ℝ) (draggedNode otherNode : Node)
    (allNodes : List Node) : ForceResult :=
  if draggedNode.parentNode ≠ otherNode.parentNode then
    { deltaX := 0, deltaY := 0, strength := 0 }
  else
    let bounds1 := getNodeBounds draggedNode
    let bounds2 := getNodeBounds otherNode
    let padding := calculateAdaptivePadding draggedNode otherNode
    let e1x := bounds1.x - padding
    let e1y := bounds1.y - padding
    let e1right := bounds1.right + padding
    let e1bottom := bounds1.bottom + padding
    let e1width := bounds1.width + padding * 2
    let e1height := bounds1.height + padding * 2
    let e2x := bounds2.x - padding
    let e2y := bounds2.y - padding
    let e2right := bounds2.right + padding
    let e2bottom := bounds2.bottom + padding
    let e2width := bounds2.width + padding * 2
    let e2height := bounds2.height + padding * 2
    let isOverlapping : Prop :=
      ¬ (e1right < e2x ∨ e1x > e2right ∨ e1bottom < e2y ∨ e1y > e2bottom)
    if ¬ isOverlapping then
      { deltaX := 0, deltaY := 0, strength := 0 }
    else
      let overlapX := min (e1right - e2x) (e2right - e1x)
      let overlapY := min (e1bottom - e2y) (e2bottom - e1y)
      let dx := bounds1.centerX - bounds2.centerX
      let dy := bounds1.centerY - bounds2.centerY
      let distance := Real.sqrt (dx * dx + dy * dy)
      if distance = 0 then
        let angle := rand * Real.pi * 2
        { deltaX := Real.cos angle * 30, deltaY := Real.sin angle * 30, strength := 1 }
      else
        let minOverlap := min overlapX overlapY
        let maxDimension := max (max e1width e1height) (max e2width e2height)
        let normalizedOverlap := min (minOverlap / maxDimension) 1
        let strength := normalizedOverlap * normalizedOverlap * (3 - 2 * normalizedOverlap)
        let forceMagnitude := minOverlap * 0.8
        let normalizedDx := dx / distance
        let normalizedDy := dy / distance
        { deltaX := normalizedDx * forceMagnitude,
          deltaY := normalizedDy * forceMagnitude,
          strength := strength }

/-- The peer filter at the top of `findValidPosition`: non-self,
non-district nodes sharing the parent. -/
def filteredPeers (node : Node) (allNodes : List Node) : List Node :=
  allNodes.filter fun n =>
    decide (n.id ≠ node.id ∧ n.type ≠ "district" ∧ n.parentNode = node.parentNode)

/-- The inner helper `isWithinDistrictBounds` of `findValidPosition`:
with no district every position is in bounds; otherwise the node must fit
inside the district (default size 1200×1000 when `style` lacks a
dimension) with `padding` kept from every edge. -/
def isWithinDistrictBounds (district : Option Node) (padding : ℝ)
    (pos : Pos) (nodeBounds : Bounds) : Prop :=
  match district with
  | none => True
  | some d =>
    let districtWidth := jsOrNum d.styleWidth 1200
    let districtHeight := jsOrNum d.styleHeight 1000
    pos.x ≥ padding ∧ pos.y ≥ padding ∧
    pos.x + nodeBounds.width ≤ districtWidth - padding ∧
    pos.y + nodeBounds.height ≤ districtHeight - padding

/-- The collision loop of `findValidPosition` (with early `break`): some
peer collides with `testNode` under the pair's adaptive padding. -/
def collidesWithAny (testNode : Node) (others : List Node) : Prop :=
  ∃ o ∈ others,
    (checkCollision testNode o (calculateAdaptivePadding testNode o)).colliding

/-- `angleStep = Math.PI / 8`. -/
def angleStep : ℝ := Real.pi / 8

/-- `positionsPerRadius = Math.floor((2 * Math.PI) / angleStep)`. -/
def positionsPerRadius : ℕ := ⌊(2 * Real.pi) / angleStep⌋₊

/-- `maxIterations = 100`. -/
def maxIterations : ℕ := 100

/-- `maxRadius = 2000`. -/
def maxRadius : ℝ := 2000

/-- The `i`-th spiral candidate at a given radius:
`angle = i*angleStep + (radius/stepSize)*0.5`, position
`preferred + radius·(cos angle, sin angle)`. -/
def spiralCandidate (preferredPosition : Pos) (stepSize radius : ℝ) (i : ℕ) : Pos :=
  let angle := i * angleStep + (radius / stepSize) * 0.5
  { x := preferredPosition.x + Real.cos angle * radius,
    y := preferredPosition.y + Real.sin angle * radius }

/-- The radii visited by
`for (let radius = stepSize; radius < maxRadius; radius += stepSize)`:
`stepSize, 2·stepSize, …` below 2000.  For `stepSize ≤ 0` the JavaScript
loop diverges; the embedding returns `[]` there (no theorem relies on that
case: they all assume positive dimensions, hence `stepSize > 0`). -/
def spiralRadii (stepSize : ℝ) : List ℝ :=
  if 0 < stepSize then
    (((List.range ⌈maxRadius / stepSize⌉₊).map fun k => stepSize * (k + 1 : ℕ)).filter
      fun r => decide (r < maxRadius))
  else []

/-- The ordered list of candidate positions probed by the spiral phase:
for each radius, indices `i < min positionsPerRadius maxIterations`. -/
def spiralCandidates (preferredPosition : Pos) (stepSize : ℝ) : List Pos :=
  (spiralRadii stepSize).flatMap fun radius =>
    (List.range (min positionsPerRadius maxIterations)).map
      (spiralCandidate preferredPosition stepSize radius)

/-- The bounds-clamp fallback of `findValidPosition` when a district is
given: each coordinate of the preferred position clamped into
`[padding, districtSize - nodeSize - padding]` (district size defaulting
to 1200×1000). -/
def clampToDistrict (d : Node) (padding : ℝ) (preferredPosition : Pos)
    (nodeBounds : Bounds) : Pos :=
  let districtWidth := jsOrNum d.styleWidth 1200
  let districtHeight := jsOrNum d.styleHeight 1000
  { x := max padding (min preferredPosition.x (districtWidth - nodeBounds.width - padding)),
    y := max padding (min preferredPosition.y (districtHeight - nodeBounds.height - padding)) }

/-- A candidate position is accepted by the spiral phase when it is inside
the district bounds and collision-free against every peer (per-pair
adaptive padding). -/
def validCandidate (node : Node) (otherNodes : List Node) (district : Option Node)
    (padding : ℝ) (nodeBounds : Bounds) (p : Pos) : Prop :=
  isWithinDistrictBounds district padding p nodeBounds ∧
  ¬ collidesWithAny { node with position := p } otherNodes

/-- The spiral loop of `findValidPosition`: the first candidate (radius
by radius, angle index by angle index, `stepSize = 10%` of the larger
node dimension) that is in bounds and collision-free, if any. -/
def spiralSearchResult (node : Node) (otherNodes : List Node)
    (district : Option Node) (padding : ℝ) (preferredPosition : Pos)
    (nodeBounds : Bounds) : Option Pos :=
  let stepSize := max nodeBounds.width nodeBounds.height * 0.1
  (spiralCandidates preferredPosition stepSize).find?
    fun p => decide (validCandidate node otherNodes district padding nodeBounds p)

/-- The position returned when the spiral search fails: the preferred
position clamped into the district's padded bounds, or the preferred
position unchanged when no district was given. -/
def fallbackPosition (district : Option Node) (padding : ℝ)
    (preferredPosition : Pos) (nodeBounds : Bounds) : Pos :=
  match district with
  | some d => clampToDistrict d padding preferredPosition nodeBounds
  | none => preferredPosition

/-- `findValidPosition node allNodes preferredPosition district padding`:
return the preferred position when it is in bounds and collision-free;
otherwise probe the spiral candidates in order and return the first valid
one; otherwise clamp the preferred position into the district (or return
it unchanged without a district). -/
def findValidPosition (node : Node) (allNodes : List Node)
    (preferredPosition : Pos) (district : Option Node) (padding : ℝ) : Pos :=
  let otherNodes := filteredPeers node allNodes
  let testNode := { node with position := preferredPosition }
  let nodeBounds := getNodeBounds testNode
  let hasCollision :=
    ¬ isWithinDistrictBounds district padding preferredPosition nodeBounds ∨
      collidesWithAny testNode otherNodes
  if ¬ hasCollision then preferredPosition
  else
    match spiralSearchResult node otherNodes district padding preferredPosition nodeBounds with
    | some p => p
    | none => fallbackPosition district padding preferredPosition nodeBounds

/-- The strict separation condition of the AABB test in `checkCollision`
(bounds expanded by `padding/2` per side). -/
def separated (node1 node2 : Node) (padding : ℝ) : Prop :=
  let bounds1 := getNodeBounds node1
  let bounds2 := getNodeBounds node2
  bounds1.right + padding / 2 < bounds2.x - padding / 2 ∨
  bounds1.x - padding / 2 > bounds2.right + padding / 2 ∨
  bounds1.bottom + padding / 2 < bounds2.y - padding / 2 ∨
  bounds1.y - padding / 2 > bounds2.bottom + padding / 2

lemma checkCollision_of_parent_ne {node1 node2 : Node} (padding : ℝ)
    (h : node1.parentNode ≠ node2.parentNode) :
    checkCollision node1 node2 padding =
      { colliding := False, overlapX := 0, overlapY := 0, distance := none } := by
  simp only [checkCollision, if_pos h]

lemma checkCollision_colliding_iff (node1 node2 : Node) (padding : ℝ) :
    (checkCollision node1 node2 padding).colliding ↔
      node1.parentNode = node2.parentNode ∧ ¬ separated node1 node2 padding := by
  by_cases hpar : node1.parentNode = node2.parentNode
  · simp only [checkCollision, separated, if_neg (not_not_intro hpar)]
    split_ifs with h
    · exact iff_of_false not_false fun hc => hc.2 h
    · exact iff_of_true trivial ⟨hpar, h⟩
  · simp [checkCollision_of_parent_ne padding hpar, hpar]

lemma checkCollision_distance_of_parent_eq (node1 node2 : Node) (padding : ℝ)
    (h : node1.parentNode = node2.parentNode) :
    (checkCollision node1 node2 padding).distance =
      some (Real.sqrt
        (((getNodeBounds node1).centerX - (getNodeBounds node2).centerX) *
          ((getNodeBounds node1).centerX - (getNodeBounds node2).centerX) +
         ((getNodeBounds node1).centerY - (getNodeBounds node2).centerY) *
          ((getNodeBounds node1).centerY - (getNodeBounds node2).centerY))) := by
  simp only [checkCollision, if_neg (not_not_intro h)]
  split_ifs <;> rfl

/-- A plain rectangular test node: `default` type, no container, explicit
numeric style size. -/
def mkNode (id : String) (x y w h : ℝ) : Node :=
  { id := id, type := "default", parentNode := none, position := { x := x, y := y },
    styleWidth := some w, styleHeight := some h,
    dataWidth := JVal.undef, dataHeight := JVal.undef }

lemma getNodeBounds_mkNode (id : String) {w h : ℝ} (x y : ℝ)
    (hw : w ≠ 0) (hh : h ≠ 0) :
    getNodeBounds (mkNode id x y w h) =
      { x := x, y := y, width := w, height := h,
        centerX := x + w / 2, centerY := y + h / 2,
        right := x + w, bottom := y + h } := by
  simp [getNodeBounds, mkNode, jsOrNum, hw, hh]

lemma separated_mono {a b : Node} {p1 p2 : ℝ} (hp : p2 < p1)
    (h : separated a b p1) : separated a b p2 := by
  simp only [separated] at h ⊢
  rcases h with h1 | h2 | h3 | h4
  · exact Or.inl (by linarith)
  · exact Or.inr (Or.inl (by linarith))
  · exact Or.inr (Or.inr (Or.inl (by linarith)))
  · exact Or.inr (Or.inr (Or.inr (by linarith)))

/-- C6: for entities with different `parentNode` (including exactly one
being unset), `checkCollision` returns
`{colliding: false, overlapX: 0, overlapY: 0, distance: Infinity}` and
`calculateRepulsionForce` returns `{deltaX: 0, deltaY: 0, strength: 0}`,
for every position, padding, random sample and node list. -/
theorem cross_container_no_interaction (a b : Node) (padding rand : ℝ)
    (allNodes : List Node) (h : a.parentNode ≠ b.parentNode) :
    checkCollision a b padding =
      { colliding := False, overlapX := 0, overlapY := 0, distance := none } ∧
    calculateRepulsionForce rand a b allNodes =
      { deltaX := 0, deltaY := 0, strength := 0 } := by
  refine ⟨checkCollision_of_parent_ne padding h, ?_⟩
  simp only [calculateRepulsionForce, if_pos h]

/-- A copy of a basic test node placed inside container `"z"`. -/
def zoneNode (id : String) (x y w h : ℝ) : Node :=
  { mkNode id x y w h with parentNode := some "z" }

theorem cross_container_no_interaction_witness :
    (mkNode "a" 0 0 200 150).parentNode ≠ (zoneNode "b" 0 0 200 150).parentNode ∧
    (checkCollision (mkNode "a" 0 0 200 150) (zoneNode "b" 0 0 200 150) 5 =
      { colliding := False, overlapX := 0, overlapY := 0, distance := none } ∧
     calculateRepulsionForce 0 (mkNode "a" 0 0 200 150) (zoneNode "b" 0 0 200 150) [] =
      { deltaX := 0, deltaY := 0, strength := 0 }) :=
  ⟨by simp [mkNode, zoneNode],
   cross_container_no_interaction _ _ 5 0 [] (by simp [mkNode, zoneNode])⟩

/-- C7: for fixed nodes and paddings `p2 < p1`, if the collision test with
padding `p1` reports no collision then so does the test with padding `p2`:
shrinking the padding never creates a collision. -/
theorem collision_padding_monotone (a b : Node) (p1 p2 : ℝ) (hp : p2 < p1)
    (h : ¬ (checkCollision a b p1).colliding) :
    ¬ (checkCollision a b p2).colliding := by
  rw [checkCollision_colliding_iff] at h ⊢
  rintro ⟨hpar, hnsep2⟩
  exact h ⟨hpar, fun hs1 => hnsep2 (separated_mono hp hs1)⟩

theorem collision_padding_monotone_witness :
    (5 : ℝ) < 10 ∧
    ¬ (checkCollision (mkNode "a" 0 0 200 150) (mkNode "b" 1000 1000 200 150) 10).colliding ∧
    ¬ (checkCollision (mkNode "a" 0 0 200 150) (mkNode "b" 1000 1000 200 150) 5).colliding := by
  have h10 : ¬ (checkCollision (mkNode "a" 0 0 200 150) (mkNode "b" 1000 1000 200 150) 10).colliding := by
    rw [checkCollision_colliding_iff]
    rintro ⟨-, hn⟩
    apply hn
    simp only [separated]
    left
    norm_num [getNodeBounds, mkNode, jsOrNum]
  exact ⟨by norm_num, h10,
    collision_padding_monotone _ _ 10 5 (by norm_num) h10⟩

/-- C1 (amended): when two same-container entities' padded rectangles
touch exactly edge-to-edge (left entity's expanded right edge equal to the
right entity's expanded left edge, no strict separation on the other three
sides), `checkCollision` reports `colliding = true`: exact edge-touching
counts as COLLIDING, because the strict inequalities sit in the
separation test. -/
theorem edge_touching_collides (a b : Node) (padding : ℝ)
    (hpar : a.parentNode = b.parentNode)
    (htouch : (getNodeBounds a).right + padding / 2 = (getNodeBounds b).x - padding / 2)
    (h2 : ¬ (getNodeBounds a).x - padding / 2 > (getNodeBounds b).right + padding / 2)
    (h3 : ¬ (getNodeBounds a).bottom + padding / 2 < (getNodeBounds b).y - padding / 2)
    (h4 : ¬ (getNodeBounds a).y - padding / 2 > (getNodeBounds b).bottom + padding / 2) :
    (checkCollision a b padding).colliding := by
  rw [checkCollision_colliding_iff]
  refine ⟨hpar, ?_⟩
  simp only [separated]
  rintro (h1 | hB | hC | hD)
  · exact absurd h1 (htouch ▸ lt_irrefl _)
  · exact h2 hB
  · exact h3 hC
  · exact h4 hD

/-- C1 counterexample: two `200×150` root entities at `(0,0)` and
`(200,0)` with padding `0` touch exactly edge-to-edge
(`right₁ = 200 = left₂`), yet `checkCollision` reports
`colliding = true`, contradicting the claim that exact edge-touching is
non-colliding. -/
theorem edge_touching_collides_cex :
    (getNodeBounds (mkNode "a" 0 0 200 150)).right + 0 / 2 =
      (getNodeBounds (mkNode "b" 200 0 200 150)).x - 0 / 2 ∧
    (checkCollision (mkNode "a" 0 0 200 150) (mkNode "b" 200 0 200 150) 0).colliding := by
  constructor
  · norm_num [getNodeBounds, mkNode, jsOrNum]
  · rw [checkCollision_colliding_iff]
    refine ⟨rfl, ?_⟩
    simp only [separated]
    norm_num [getNodeBounds, mkNode, jsOrNum]

theorem edge_touching_collides_witness :
    ((mkNode "a" 0 0 200 150).parentNode = (mkNode "b" 200 0 200 150).parentNode ∧
     (getNodeBounds (mkNode "a" 0 0 200 150)).right + 0 / 2 =
       (getNodeBounds (mkNode "b" 200 0 200 150)).x - 0 / 2 ∧
     ¬ (getNodeBounds (mkNode "a" 0 0 200 150)).x - 0 / 2 >
       (getNodeBounds (mkNode "b" 200 0 200 150)).right + 0 / 2 ∧
     ¬ (getNodeBounds (mkNode "a" 0 0 200 150)).bottom + 0 / 2 <
       (getNodeBounds (mkNode "b" 200 0 200 150)).y - 0 / 2 ∧
     ¬ (getNodeBounds (mkNode "a" 0 0 200 150)).y - 0 / 2 >
       (getNodeBounds (mkNode "b" 200 0 200 150)).bottom + 0 / 2) ∧
    (checkCollision (mkNode "a" 0 0 200 150) (mkNode "b" 200 0 200 150) 0).colliding := by
  refine ⟨⟨rfl, ?_, ?_, ?_, ?_⟩, edge_touching_collides _ _ 0 rfl ?_ ?_ ?_ ?_⟩ <;>
    norm_num [getNodeBounds, mkNode, jsOrNum]

/-- C9 counterexample: for E1 at `(0,0)` and E2 at `(500,500)`, both
`200×150` in the same (root) container, `checkCollision` with padding
`37.5` indeed reports no collision, but the center-to-center distance is
`√500000 > 698.8`, hence NOT approximately `678.8` (it is more than 20
units larger). -/
theorem scenarioB_distance_cex :
    ¬ (checkCollision (mkNode "E1" 0 0 200 150) (mkNode "E2" 500 500 200 150) 37.5).colliding ∧
    (checkCollision (mkNode "E1" 0 0 200 150) (mkNode "E2" 500 500 200 150) 37.5).distance =
      some (Real.sqrt 500000) ∧
    678.8 + 20 < Real.sqrt 500000 := by
  refine ⟨?_, ?_, ?_⟩
  · rw [checkCollision_colliding_iff]
    rintro ⟨-, hn⟩
    apply hn
    simp only [separated]
    left
    norm_num [getNodeBounds, mkNode, jsOrNum]
  · rw [checkCollision_distance_of_parent_eq (mkNode "E1" 0 0 200 150)
      (mkNode "E2" 500 500 200 150) 37.5 rfl]
    norm_num [getNodeBounds, mkNode, jsOrNum]
  · have h : (698.8 : ℝ) < Real.sqrt 500000 :=
      (Real.lt_sqrt (by norm_num)).2 (by norm_num)
    linarith

/-- C9 (amended): for E1 at `(0,0)` size `200×150` and E2 at `(500,500)`
size `200×150` in the same container, `checkCollision` with padding `37.5`
returns `colliding = false` and a center-to-center distance of
`√500000 = 500·√2 ≈ 707.1` (strictly between `707.1` and `707.11`). -/
theorem scenarioB_distance :
    ¬ (checkCollision (mkNode "E1" 0 0 200 150) (mkNode "E2" 500 500 200 150) 37.5).colliding ∧
    (checkCollision (mkNode "E1" 0 0 200 150) (mkNode "E2" 500 500 200 150) 37.5).distance =
      some (Real.sqrt 500000) ∧
    707.1 < Real.sqrt 500000 ∧ Real.sqrt 500000 < 707.11 := by
  refine ⟨?_, ?_, (Real.lt_sqrt (by norm_num)).2 (by norm_num),
    (Real.sqrt_lt' (by norm_num)).2 (by norm_num)⟩
  · rw [checkCollision_colliding_iff]
    rintro ⟨-, hn⟩
    apply hn
    simp only [separated]
    left
    norm_num [getNodeBounds, mkNode, jsOrNum]
  · rw [checkCollision_distance_of_parent_eq (mkNode "E1" 0 0 200 150)
      (mkNode "E2" 500 500 200 150) 37.5 rfl]
    norm_num [getNodeBounds, mkNode, jsOrNum]

/-- A node with a malformed explicit size: numeric `data.width`, string
`data.height`, no style sizes. -/
def mixedNode : Node :=
  { id := "m", type := "note", parentNode := none, position := { x := 0, y := 0 },
    styleWidth := none, styleHeight := none,
    dataWidth := JVal.num 300, dataHeight := JVal.str "tall" }

/-- C3 (amended): `getNodeBounds` resolves the two dimensions
independently: with no style sizes, a truthy numeric `data.width` and a
non-numeric `data.height`, the returned bounds mix the explicit width with
the type-default height. -/
theorem bounds_dimension_mixing (node : Node) (q : ℝ) (s : String)
    (hsw : node.styleWidth = none) (hsh : node.styleHeight = none)
    (hdw : node.dataWidth = JVal.num q) (hq : q ≠ 0)
    (hdh : node.dataHeight = JVal.str s) :
    (getNodeBounds node).width = q ∧
    (getNodeBounds node).height = (getDefaultNodeSize node.type).height := by
  simp [getNodeBounds, hsw, hsh, hdw, hdh, jsOrNum, dataNum, hq]

/-- C3 counterexample: the node of type `note` (default size `200×150`)
with `data.width = 300` (numeric) and `data.height = "tall"`
(non-numeric) gets bounds `300×150` — the explicit width mixed with the
default height — not the all-default `200×150` the claim requires. -/
theorem bounds_dimension_mixing_cex :
    (getNodeBounds mixedNode).width = 300 ∧
    (getNodeBounds mixedNode).height = 150 ∧
    (getDefaultNodeSize mixedNode.type).width = 200 := by
  have hnote : getDefaultNodeSize "note" = { width := 200, height := 150 } := rfl
  refine ⟨?_, ?_, ?_⟩ <;>
    norm_num [getNodeBounds, mixedNode, jsOrNum, dataNum, hnote]

theorem bounds_dimension_mixing_witness :
    (mixedNode.styleWidth = none ∧ mixedNode.styleHeight = none ∧
     mixedNode.dataWidth = JVal.num 300 ∧ (300 : ℝ) ≠ 0 ∧
     mixedNode.dataHeight = JVal.str "tall") ∧
    ((getNodeBounds mixedNode).width = 300 ∧
     (getNodeBounds mixedNode).height = (getDefaultNodeSize mixedNode.type).height) :=
  ⟨⟨rfl, rfl, rfl, by norm_num, rfl⟩,
   bounds_dimension_mixing mixedNode 300 "tall" rfl rfl rfl (by norm_num) rfl⟩

/-- The strict separation condition of the AABB test in
`calculateRepulsionForce` (bounds expanded by the full adaptive padding
per side); the code's `isOverlapping` is its negation. -/
def separatedFull (d o : Node) : Prop :=
  let p := calculateAdaptivePadding d o
  let b1 := getNodeBounds d
  let b2 := getNodeBounds o
  b1.right + p < b2.x - p ∨ b1.x - p > b2.right + p ∨
  b1.bottom + p < b2.y - p ∨ b1.y - p > b2.bottom + p

/-- `dx` of `calculateRepulsionForce`. -/
def repulsionDx (d o : Node) : ℝ :=
  (getNodeBounds d).centerX - (getNodeBounds o).centerX

/-- `dy` of `calculateRepulsionForce`. -/
def repulsionDy (d o : Node) : ℝ :=
  (getNodeBounds d).centerY - (getNodeBounds o).centerY

/-- `distance` of `calculateRepulsionForce`. -/
def repulsionDistance (d o : Node) : ℝ :=
  Real.sqrt (repulsionDx d o * repulsionDx d o + repulsionDy d o * repulsionDy d o)

/-- `overlapX` of `calculateRepulsionForce` (full-padding zones). -/
def repulsionOverlapX (d o : Node) : ℝ :=
  let p := calculateAdaptivePadding d o
  min ((getNodeBounds d).right + p - ((getNodeBounds o).x - p))
    ((getNodeBounds o).right + p - ((getNodeBounds d).x - p))

/-- `overlapY` of `calculateRepulsionForce` (full-padding zones). -/
def repulsionOverlapY (d o : Node) : ℝ :=
  let p := calculateAdaptivePadding d o
  min ((getNodeBounds d).bottom + p - ((getNodeBounds o).y - p))
    ((getNodeBounds o).bottom + p - ((getNodeBounds d).y - p))

/-- `minOverlap` of `calculateRepulsionForce`. -/
def repulsionMinOverlap (d o : Node) : ℝ :=
  min (repulsionOverlapX d o) (repulsionOverlapY d o)

/-- `maxDimension` of `calculateRepulsionForce` (largest expanded
width/height among the two zones). -/
def repulsionMaxDimension (d o : Node) : ℝ :=
  let p := calculateAdaptivePadding d o
  max (max ((getNodeBounds d).width + p * 2) ((getNodeBounds d).height + p * 2))
    (max ((getNodeBounds o).width + p * 2) ((getNodeBounds o).height + p * 2))

/-- `normalizedOverlap` and the smoothstep `strength` of
`calculateRepulsionForce`. -/
def repulsionStrength (d o : Node) : ℝ :=
  let normalizedOverlap := min (repulsionMinOverlap d o / repulsionMaxDimension d o) 1
  normalizedOverlap * normalizedOverlap * (3 - 2 * normalizedOverlap)

lemma calculateRepulsionForce_of_separated (rand : ℝ) (d o : Node) (ns : List Node)
    (hsep : separatedFull d o) :
    calculateRepulsionForce rand d o ns = { deltaX := 0, deltaY := 0, strength := 0 } := by
  by_cases hpar : d.parentNode = o.parentNode
  · simp only [calculateRepulsionForce, if_neg (not_not_intro hpar), separatedFull] at hsep ⊢
    rw [if_pos (not_not_intro hsep)]
  · simp only [calculateRepulsionForce, if_pos hpar]

lemma calculateRepulsionForce_rand_branch (rand : ℝ) (d o : Node) (ns : List Node)
    (hpar : d.parentNode = o.parentNode)
    (hov : ¬ separatedFull d o)
    (hcx : (getNodeBounds d).centerX = (getNodeBounds o).centerX)
    (hcy : (getNodeBounds d).centerY = (getNodeBounds o).centerY) :
    calculateRepulsionForce rand d o ns =
      { deltaX := Real.cos (rand * Real.pi * 2) * 30,
        deltaY := Real.sin (rand * Real.pi * 2) * 30, strength := 1 } := by
  simp only [calculateRepulsionForce, if_neg (not_not_intro hpar), separatedFull] at hov ⊢
  rw [if_neg (not_not_intro hov), if_pos]
  rw [sub_eq_zero.2 hcx, sub_eq_zero.2 hcy]
  simp [Real.sqrt_eq_zero']

lemma calculateRepulsionForce_main_branch (rand : ℝ) (d o : Node) (ns : List Node)
    (hpar : d.parentNode = o.parentNode)
    (hov : ¬ separatedFull d o)
    (hcent : ¬ ((getNodeBounds d).centerX = (getNodeBounds o).centerX ∧
      (getNodeBounds d).centerY = (getNodeBounds o).centerY)) :
    calculateRepulsionForce rand d o ns =
      { deltaX := repulsionDx d o / repulsionDistance d o * (repulsionMinOverlap d o * 0.8),
        deltaY := repulsionDy d o / repulsionDistance d o * (repulsionMinOverlap d o * 0.8),
        strength := repulsionStrength d o } := by
  have hS : 0 < repulsionDx d o * repulsionDx d o + repulsionDy d o * repulsionDy d o := by
    rcases not_and_or.mp hcent with h | h
    · have hne : repulsionDx d o ≠ 0 := sub_ne_zero.2 h
      nlinarith [mul_self_pos.2 hne, mul_self_nonneg (repulsionDy d o)]
    · have hne : repulsionDy d o ≠ 0 := sub_ne_zero.2 h
      nlinarith [mul_self_pos.2 hne, mul_self_nonneg (repulsionDx d o)]
  have hdist : Real.sqrt (repulsionDx d o * repulsionDx d o +
      repulsionDy d o * repulsionDy d o) ≠ 0 :=
    ne_of_gt (Real.sqrt_pos.2 hS)
  simp only [calculateRepulsionForce, if_neg (not_not_intro hpar), separatedFull] at hov ⊢
  rw [if_neg (not_not_intro hov), if_neg]
  · simp only [repulsionDx, repulsionDy, repulsionDistance, repulsionMinOverlap,
      repulsionOverlapX, repulsionOverlapY, repulsionStrength, repulsionMaxDimension]
  · simpa only [repulsionDx, repulsionDy] using hdist

lemma repulsion_sumsq_pos {d o : Node}
    (hcent : ¬ ((getNodeBounds d).centerX = (getNodeBounds o).centerX ∧
      (getNodeBounds d).centerY = (getNodeBounds o).centerY)) :
    0 < repulsionDx d o * repulsionDx d o + repulsionDy d o * repulsionDy d o := by
  rcases not_and_or.mp hcent with h | h
  · have hne : repulsionDx d o ≠ 0 := sub_ne_zero.2 h
    nlinarith [mul_self_pos.2 hne, mul_self_nonneg (repulsionDy d o)]
  · have hne : repulsionDy d o ≠ 0 := sub_ne_zero.2 h
    nlinarith [mul_self_pos.2 hne, mul_self_nonneg (repulsionDx d o)]

/-- C2 (amended): for same-container entities whose full-padding expanded
zones strictly overlap (positive overlap on both axes) and whose centers
differ, the returned `deltaX/deltaY` has POSITIVE dot product with the
vector from `other`'s center to `dragged`'s center: applied to `other` it
moves `other` toward `dragged` (equivalently, applied to `dragged` it
would push `dragged` away from `other`), the opposite of the direction
the claim states. -/
theorem repulsion_direction (rand : ℝ) (d o : Node) (ns : List Node)
    (hpar : d.parentNode = o.parentNode)
    (hox : 0 < repulsionOverlapX d o)
    (hoy : 0 < repulsionOverlapY d o)
    (hcent : ¬ ((getNodeBounds d).centerX = (getNodeBounds o).centerX ∧
      (getNodeBounds d).centerY = (getNodeBounds o).centerY)) :
    0 < (calculateRepulsionForce rand d o ns).deltaX *
          ((getNodeBounds d).centerX - (getNodeBounds o).centerX) +
        (calculateRepulsionForce rand d o ns).deltaY *
          ((getNodeBounds d).centerY - (getNodeBounds o).centerY) := by
  have hox' : (getNodeBounds o).x - calculateAdaptivePadding d o <
        (getNodeBounds d).right + calculateAdaptivePadding d o ∧
      (getNodeBounds d).x - calculateAdaptivePadding d o <
        (getNodeBounds o).right + calculateAdaptivePadding d o := by
    simpa [repulsionOverlapX] using hox
  have hoy' : (getNodeBounds o).y - calculateAdaptivePadding d o <
        (getNodeBounds d).bottom + calculateAdaptivePadding d o ∧
      (getNodeBounds d).y - calculateAdaptivePadding d o <
        (getNodeBounds o).bottom + calculateAdaptivePadding d o := by
    simpa [repulsionOverlapY] using hoy
  have hov : ¬ separatedFull d o := by
    simp only [separatedFull]
    rintro (h | h | h | h)
    · linarith [hox'.1]
    · linarith [hox'.2]
    · linarith [hoy'.1]
    · linarith [hoy'.2]
  have hS := repulsion_sumsq_pos hcent
  have hdistpos : 0 < repulsionDistance d o := Real.sqrt_pos.2 hS
  have hm : 0 < repulsionMinOverlap d o := by
    rw [repulsionMinOverlap]
    exact lt_min_iff.2 ⟨hox, hoy⟩
  rw [calculateRepulsionForce_main_branch rand d o ns hpar hov hcent]
  have e1 : (getNodeBounds d).centerX - (getNodeBounds o).centerX = repulsionDx d o := rfl
  have e2 : (getNodeBounds d).centerY - (getNodeBounds o).centerY = repulsionDy d o := rfl
  rw [e1, e2]
  have key : repulsionDx d o / repulsionDistance d o * (repulsionMinOverlap d o * 0.8) *
        repulsionDx d o +
      repulsionDy d o / repulsionDistance d o * (repulsionMinOverlap d o * 0.8) *
        repulsionDy d o =
      repulsionMinOverlap d o * 0.8 *
        (repulsionDx d o * repulsionDx d o + repulsionDy d o * repulsionDy d o) /
        repulsionDistance d o := by
    ring
  show 0 < repulsionDx d o / repulsionDistance d o * (repulsionMinOverlap d o * 0.8) *
        repulsionDx d o +
      repulsionDy d o / repulsionDistance d o * (repulsionMinOverlap d o * 0.8) *
        repulsionDy d o
  rw [key]
  exact div_pos (mul_pos (by linarith) hS) hdistpos

/-- The dragged test entity: `200×150` at `(0,0)`, root container. -/
def dragN : Node := mkNode "drag" 0 0 200 150

/-- The neighbor test entity: `200×150` at `(100,0)`, root container,
overlapping `dragN`. -/
def othN : Node := mkNode "oth" 100 0 200 150

lemma adaptivePadding_dragN_othN : calculateAdaptivePadding dragN othN = 37.5 := by
  norm_num [calculateAdaptivePadding, getNodeBounds, dragN, othN, mkNode, jsOrNum,
    min_def, max_def]

lemma centers_ne_dragN_othN :
    ¬ ((getNodeBounds dragN).centerX = (getNodeBounds othN).centerX ∧
       (getNodeBounds dragN).centerY = (getNodeBounds othN).centerY) := by
  norm_num [getNodeBounds, dragN, othN, mkNode, jsOrNum]

lemma not_separatedFull_dragN_othN : ¬ separatedFull dragN othN := by
  simp only [separatedFull, adaptivePadding_dragN_othN]
  norm_num [getNodeBounds, dragN, othN, mkNode, jsOrNum]

/-- C2 counterexample: `dragN` at `(0,0)` and `othN` at `(100,0)`, both
`200×150`, same container, overlapping zones, distinct centers.  The
vector from the dragged entity's center to the other's center is
`(100, 0)`, and the returned delta has dot product `−14000 < 0` with it:
applying the delta to `other` moves it toward the dragged entity, not
away from it. -/
theorem repulsion_direction_cex :
    (getNodeBounds othN).centerX - (getNodeBounds dragN).centerX = 100 ∧
    (getNodeBounds othN).centerY - (getNodeBounds dragN).centerY = 0 ∧
    (calculateRepulsionForce 0 dragN othN []).deltaX * 100 +
      (calculateRepulsionForce 0 dragN othN []).deltaY * 0 < 0 := by
  have hdx : repulsionDx dragN othN = -100 := by
    norm_num [repulsionDx, getNodeBounds, dragN, othN, mkNode, jsOrNum]
  have hdy : repulsionDy dragN othN = 0 := by
    norm_num [repulsionDy, getNodeBounds, dragN, othN, mkNode, jsOrNum]
  have hdist : repulsionDistance dragN othN = 100 := by
    rw [repulsionDistance, hdx, hdy,
      show (-100 : ℝ) * -100 + 0 * 0 = 100 ^ 2 by norm_num]
    exact Real.sqrt_sq (by norm_num)
  have hminov : repulsionMinOverlap dragN othN = 175 := by
    simp only [repulsionMinOverlap, repulsionOverlapX, repulsionOverlapY,
      adaptivePadding_dragN_othN]
    norm_num [getNodeBounds, dragN, othN, mkNode, jsOrNum, min_def]
  refine ⟨by norm_num [getNodeBounds, dragN, othN, mkNode, jsOrNum],
    by norm_num [getNodeBounds, dragN, othN, mkNode, jsOrNum], ?_⟩
  rw [calculateRepulsionForce_main_branch 0 dragN othN [] rfl
    not_separatedFull_dragN_othN centers_ne_dragN_othN]
  show repulsionDx dragN othN / repulsionDistance dragN othN *
      (repulsionMinOverlap dragN othN * 0.8) * 100 +
    repulsionDy dragN othN / repulsionDistance dragN othN *
      (repulsionMinOverlap dragN othN * 0.8) * 0 < 0
  rw [hdx, hdy, hdist, hminov]
  norm_num

theorem repulsion_direction_witness :
    (dragN.parentNode = othN.parentNode ∧
     0 < repulsionOverlapX dragN othN ∧ 0 < repulsionOverlapY dragN othN ∧
     ¬ ((getNodeBounds dragN).centerX = (getNodeBounds othN).centerX ∧
        (getNodeBounds dragN).centerY = (getNodeBounds othN).centerY)) ∧
    0 < (calculateRepulsionForce 0 dragN othN []).deltaX *
          ((getNodeBounds dragN).centerX - (getNodeBounds othN).centerX) +
        (calculateRepulsionForce 0 dragN othN []).deltaY *
          ((getNodeBounds dragN).centerY - (getNodeBounds othN).centerY) := by
  have hox : 0 < repulsionOverlapX dragN othN := by
    simp only [repulsionOverlapX, adaptivePadding_dragN_othN]
    norm_num [getNodeBounds, dragN, othN, mkNode, jsOrNum, min_def]
  have hoy : 0 < repulsionOverlapY dragN othN := by
    simp only [repulsionOverlapY, adaptivePadding_dragN_othN]
    norm_num [getNodeBounds, dragN, othN, mkNode, jsOrNum, min_def]
  exact ⟨⟨rfl, hox, hoy, centers_ne_dragN_othN⟩,
    repulsion_direction 0 dragN othN [] rfl hox hoy centers_ne_dragN_othN⟩

/-- Two coincident `200×150` root entities (exact same position, hence
exactly the same center). -/
def coinA : Node := mkNode "coinA" 0 0 200 150

/-- See `coinA`. -/
def coinB : Node := mkNode "coinB" 0 0 200 150

lemma adaptivePadding_coin : calculateAdaptivePadding coinA coinB = 37.5 := by
  norm_num [calculateAdaptivePadding, getNodeBounds, coinA, coinB, mkNode, jsOrNum,
    min_def, max_def]

lemma not_separatedFull_coin : ¬ separatedFull coinA coinB := by
  simp only [separatedFull, adaptivePadding_coin]
  norm_num [getNodeBounds, coinA, coinB, mkNode, jsOrNum]

/-- C8 counterexample: for the coincident-center overlapping pair
`coinA`, `coinB`, two calls to `calculateRepulsionForce` on identical
node arguments but different `Math.random()` samples (`0` and `1/2`)
return different deltas (`(30,0)` vs `(−30,0)`): the operation is not a
deterministic function of the entities alone. -/
theorem repulsion_nondeterminism_cex :
    calculateRepulsionForce 0 coinA coinB [] ≠
      calculateRepulsionForce (1 / 2) coinA coinB [] := by
  rw [calculateRepulsionForce_rand_branch 0 coinA coinB [] rfl not_separatedFull_coin
      rfl rfl,
    calculateRepulsionForce_rand_branch (1 / 2) coinA coinB [] rfl not_separatedFull_coin
      rfl rfl]
  intro hEq
  have hX := congrArg ForceResult.deltaX hEq
  rw [show (0 : ℝ) * Real.pi * 2 = 0 by ring,
    show (1 / 2 : ℝ) * Real.pi * 2 = Real.pi by ring] at hX
  simp only [Real.cos_zero, Real.cos_pi] at hX
  norm_num at hX

/-- C8 (amended): `calculateRepulsionForce` is independent of the random
sample — hence a deterministic function of its node inputs — whenever the
two entities are in different containers, or their full-padding zones do
not overlap, or their centers differ; only the coincident-center
overlapping same-container case consults `Math.random()`. -/
theorem repulsion_deterministic_unless_coincident (r1 r2 : ℝ) (d o : Node)
    (ns : List Node)
    (h : d.parentNode ≠ o.parentNode ∨ separatedFull d o ∨
      ¬ ((getNodeBounds d).centerX = (getNodeBounds o).centerX ∧
         (getNodeBounds d).centerY = (getNodeBounds o).centerY)) :
    calculateRepulsionForce r1 d o ns = calculateRepulsionForce r2 d o ns := by
  rcases h with h | h | h
  · simp only [calculateRepulsionForce, if_pos h]
  · rw [calculateRepulsionForce_of_separated r1 d o ns h,
      calculateRepulsionForce_of_separated r2 d o ns h]
  · by_cases hpar : d.parentNode = o.parentNode
    · by_cases hsep : separatedFull d o
      · rw [calculateRepulsionForce_of_separated r1 d o ns hsep,
          calculateRepulsionForce_of_separated r2 d o ns hsep]
      · rw [calculateRepulsionForce_main_branch r1 d o ns hpar hsep h,
          calculateRepulsionForce_main_branch r2 d o ns hpar hsep h]
    · simp only [calculateRepulsionForce, if_pos hpar]

theorem repulsion_deterministic_unless_coincident_witness :
    (dragN.parentNode ≠ othN.parentNode ∨ separatedFull dragN othN ∨
      ¬ ((getNodeBounds dragN).centerX = (getNodeBounds othN).centerX ∧
         (getNodeBounds dragN).centerY = (getNodeBounds othN).centerY)) ∧
    calculateRepulsionForce 0 dragN othN [] = calculateRepulsionForce 1 dragN othN [] :=
  ⟨Or.inr (Or.inr centers_ne_dragN_othN),
   repulsion_deterministic_unless_coincident 0 1 dragN othN []
     (Or.inr (Or.inr centers_ne_dragN_othN))⟩

/-- C4 (evaluating the code at the divergence): the spiral phase probes
`positionsPerRadius = ⌊2π / (π/8)⌋ = 16` angularly-spaced candidate
points per radius — and the `maxIterations` guard does not reduce this —
not the 8 points stated by the claim and by the code's own
`8 directions per radius` comment. -/
theorem spiral_positions_per_radius : positionsPerRadius = 16 ∧
    min positionsPerRadius maxIterations = 16 ∧ positionsPerRadius ≠ 8 := by
  have h : (2 * Real.pi) / angleStep = 16 := by
    rw [angleStep]
    field_simp
    ring
  have h16 : positionsPerRadius = 16 := by
    rw [positionsPerRadius, h]
    norm_num
  exact ⟨h16, by simp [h16, maxIterations], by rw [h16]; norm_num⟩

/-- C5: given positive resolved dimensions, `findValidPosition` (a total
function of its inputs) returns a position that is either collision-free
against every filtered peer under per-pair adaptive padding, or equal to
the preferred position clamped into the district's padded bounds (the
preferred position itself when no district is given). -/
theorem findValidPosition_valid_or_fallback (node : Node) (allNodes : List Node)
    (preferredPosition : Pos) (district : Option Node) (padding : ℝ)
    (hw : 0 < (getNodeBounds { node with position := preferredPosition }).width)
    (hh : 0 < (getNodeBounds { node with position := preferredPosition }).height) :
    ¬ collidesWithAny
        { node with
          position := findValidPosition node allNodes preferredPosition district padding }
        (filteredPeers node allNodes) ∨
    findValidPosition node allNodes preferredPosition district padding =
      fallbackPosition district padding preferredPosition
        (getNodeBounds { node with position := preferredPosition }) := by
  simp only [findValidPosition]
  by_cases h1 :
      ¬ isWithinDistrictBounds district padding preferredPosition
          (getNodeBounds { node with position := preferredPosition }) ∨
        collidesWithAny { node with position := preferredPosition }
          (filteredPeers node allNodes)
  · rw [if_neg (not_not_intro h1)]
    cases hfind : spiralSearchResult node (filteredPeers node allNodes) district padding
        preferredPosition (getNodeBounds { node with position := preferredPosition }) with
    | some p =>
      left
      have hp := List.find?_some (by simpa [spiralSearchResult] using hfind)
      exact (of_decide_eq_true hp).2
    | none =>
      right
      rfl
  · rw [if_pos h1]
    left
    exact (not_or.mp h1).2

theorem findValidPosition_valid_or_fallback_witness :
    (0 < (getNodeBounds { mkNode "w5" 0 0 200 150 with position := { x := 0, y := 0 } }).width ∧
     0 < (getNodeBounds { mkNode "w5" 0 0 200 150 with position := { x := 0, y := 0 } }).height) ∧
    (¬ collidesWithAny
        { mkNode "w5" 0 0 200 150 with
          position := findValidPosition (mkNode "w5" 0 0 200 150) [] { x := 0, y := 0 } none 50 }
        (filteredPeers (mkNode "w5" 0 0 200 150) []) ∨
     findValidPosition (mkNode "w5" 0 0 200 150) [] { x := 0, y := 0 } none 50 =
       fallbackPosition none 50 { x := 0, y := 0 }
         (getNodeBounds { mkNode "w5" 0 0 200 150 with position := { x := 0, y := 0 } })) := by
  have hw : 0 < (getNodeBounds
      { mkNode "w5" 0 0 200 150 with position := { x := 0, y := 0 } }).width := by
    norm_num [getNodeBounds, mkNode, jsOrNum]
  have hh : 0 < (getNodeBounds
      { mkNode "w5" 0 0 200 150 with position := { x := 0, y := 0 } }).height := by
    norm_num [getNodeBounds, mkNode, jsOrNum]
  exact ⟨⟨hw, hh⟩,
    findValidPosition_valid_or_fallback (mkNode "w5" 0 0 200 150) [] { x := 0, y := 0 }
      none 50 hw hh⟩

/-- C10: when the district's `style` lacks a width or height,
`findValidPosition` substitutes the default container size `1200×1000`
both in the in-bounds test of candidate positions (`isWithinDistrictBounds`)
and in the final clamp fallback (`clampToDistrict`), and — for a
non-negatively sized node and an edge padding of at most 500 — the
clamped fallback point always lies within the padded `1200×1000`
rectangle. -/
theorem district_default_size (d : Node) (padding : ℝ) (pos preferredPosition : Pos)
    (nodeBounds : Bounds)
    (hw : d.styleWidth = none) (hh : d.styleHeight = none)
    (hnw : 0 ≤ nodeBounds.width) (hnh : 0 ≤ nodeBounds.height)
    (hp : padding ≤ 500) :
    (isWithinDistrictBounds (some d) padding pos nodeBounds ↔
      (pos.x ≥ padding ∧ pos.y ≥ padding ∧
       pos.x + nodeBounds.width ≤ 1200 - padding ∧
       pos.y + nodeBounds.height ≤ 1000 - padding)) ∧
    (padding ≤ (clampToDistrict d padding preferredPosition nodeBounds).x ∧
     (clampToDistrict d padding preferredPosition nodeBounds).x ≤ 1200 - padding ∧
     padding ≤ (clampToDistrict d padding preferredPosition nodeBounds).y ∧
     (clampToDistrict d padding preferredPosition nodeBounds).y ≤ 1000 - padding) := by
  constructor
  · simp only [isWithinDistrictBounds, hw, hh, jsOrNum]
  · simp only [clampToDistrict, hw, hh, jsOrNum]
    refine ⟨le_max_left _ _, ?_, le_max_left _ _, ?_⟩
    · exact max_le (by linarith) (le_trans (min_le_right _ _) (by linarith))
    · exact max_le (by linarith) (le_trans (min_le_right _ _) (by linarith))

/-- A district node with no explicit style sizes. -/
def bareDistrict : Node :=
  { id := "d10", type := "district", parentNode := none,
    position := { x := 0, y := 0 }, styleWidth := none, styleHeight := none,
    dataWidth := JVal.undef, dataHeight := JVal.undef }

/-- The bounds of the C10 witness node. -/
def nb10 : Bounds := getNodeBounds (mkNode "n10" 0 0 200 150)

theorem district_default_size_witness :
    (bareDistrict.styleWidth = none ∧ bareDistrict.styleHeight = none ∧
     0 ≤ nb10.width ∧ 0 ≤ nb10.height ∧ (50 : ℝ) ≤ 500) ∧
    ((isWithinDistrictBounds (some bareDistrict) 50 { x := 60, y := 60 } nb10 ↔
      (({ x := 60, y := 60 } : Pos).x ≥ 50 ∧ ({ x := 60, y := 60 } : Pos).y ≥ 50 ∧
       ({ x := 60, y := 60 } : Pos).x + nb10.width ≤ 1200 - 50 ∧
       ({ x := 60, y := 60 } : Pos).y + nb10.height ≤ 1000 - 50)) ∧
     (50 ≤ (clampToDistrict bareDistrict 50 { x := 2000, y := -300 } nb10).x ∧
      (clampToDistrict bareDistrict 50 { x := 2000, y := -300 } nb10).x ≤ 1200 - 50 ∧
      50 ≤ (clampToDistrict bareDistrict 50 { x := 2000, y := -300 } nb10).y ∧
      (clampToDistrict bareDistrict 50 { x := 2000, y := -300 } nb10).y ≤ 1000 - 50)) := by
  have hnw : 0 ≤ nb10.width := by norm_num [nb10, getNodeBounds, mkNode, jsOrNum]
  have hnh : 0 ≤ nb10.height := by norm_num [nb10, getNodeBounds, mkNode, jsOrNum]
  exact ⟨⟨rfl, rfl, hnw, hnh, by norm_num⟩,
    district_default_size bareDistrict 50 { x := 60, y := 60 } { x := 2000, y := -300 }
      nb10 rfl rfl hnw hnh (by norm_num)⟩

end
